import Mathlib

/-!
Verification of the document-processing pipeline, consolidation view and export flow of the
mining-contract-management repository.  The JavaScript/TypeScript source is shallowly embedded:
network and store effects are passed in explicitly as environment values (each field of an
environment record is the outcome of one suspension point of the source function), JSON values
are modelled by an inductive `JSVal`, and the platform functions the source relies on
(`JSON.parse`, `new Date(...)`, regex matching, truthiness) are modelled by executable Lean
functions.  Timestamps (`created_at`/`updated_at`) are not modelled: they are refreshed on every
write and nothing here depends on them.
-/

namespace MiningContracts

/-- Document lifecycle status, the five string values stored in the `status` column:
`pending`, `processing`, `analyzed`, `error`, `analysis_error`. -/
inductive DocStatus
  | pending
  | processing
  | analyzed
  | error
  | analysisError
  deriving DecidableEq

/-- A JSON/JavaScript value, as produced by `JSON.parse` and stored in jsonb columns. -/
inductive JSVal
  | vnull
  | vbool (b : Bool)
  | vnum (n : Int)
  | vstr (s : String)
  | varr (elems : List JSVal)
  | vobj (fields : List (String × JSVal))

/-- Property lookup on an object: the first binding of the key, `none` for `undefined`. -/
def jsField : List (String × JSVal) → String → Option JSVal
  | [], _ => none
  | (k, v) :: rest, key => if k = key then some v else jsField rest key

/-- JavaScript falsiness of a value (`undefined` is handled at the `Option` level). -/
def jsFalsy : JSVal → Bool
  | .vnull => true
  | .vbool b => !b
  | .vnum n => n == 0
  | .vstr s => s == ""
  | .varr _ => false
  | .vobj _ => false

/-- Truthiness of a possibly-undefined value. -/
def jsTruthyOpt : Option JSVal → Bool
  | none => false
  | some v => !jsFalsy v

/-- Truthiness of a possibly-undefined string (as used on the provider file handle). -/
def truthyStrOpt : Option String → Bool
  | none => false
  | some s => !(s == "")

/-- Gregorian leap-year rule, as used by ECMAScript date arithmetic. -/
def isLeapYear (y : Nat) : Bool :=
  (y % 4 == 0 && y % 100 != 0) || y % 400 == 0

/-- Number of days in month `m` of year `y`. -/
def daysInMonth (y m : Nat) : Nat :=
  if m == 2 then (if isLeapYear y then 29 else 28)
  else if m == 4 || m == 6 || m == 9 || m == 11 then 30
  else 31

/-- Decimal digit value of a character, `none` for non-digits. -/
def digit? (c : Char) : Option Nat :=
  if c.isDigit then some (c.toNat - '0'.toNat) else none

/-- Models `new Date(s).getTime()` for the ISO `YYYY-MM-DD` date-only format, the format the
due dates of this system use; the engine rejects out-of-range months and days in this format.
The returned timestamp surrogate `y*10000 + m*100 + d` is strictly order-isomorphic to the
epoch-milliseconds value over valid calendar dates, which is all the sort comparator needs.
Strings in other shapes are treated as invalid dates; no claim exercises the engine's legacy
parser formats. -/
def parseDate (s : String) : Option Int :=
  match s.toList with
  | [y1, y2, y3, y4, sep1, m1, m2, sep2, d1, d2] =>
    if sep1 == '-' && sep2 == '-' then
      match digit? y1, digit? y2, digit? y3, digit? y4,
            digit? m1, digit? m2, digit? d1, digit? d2 with
      | some a, some b, some c, some d, some e, some f, some g, some h =>
        let y := a * 1000 + b * 100 + c * 10 + d
        let m := e * 10 + f
        let dd := g * 10 + h
        if 1 ≤ m && m ≤ 12 && 1 ≤ dd && dd ≤ daysInMonth y m then
          some (Int.ofNat (y * 10000 + m * 100 + dd))
        else none
      | _, _, _, _, _, _, _, _ => none
    else none
  | _ => none

/-- Models the time value of `new Date(v)` on a primitive: numbers are epoch offsets, strings
are parsed, booleans coerce to 0/1, `null` coerces to 0.  Arrays and objects are treated as
invalid (their string-coercion round trip is not modelled; no claim exercises it). -/
def jsDateValue : JSVal → Option Int
  | .vstr s => parseDate s
  | .vnum n => some n
  | .vbool b => some (if b then 1 else 0)
  | .vnull => some 0
  | .varr _ => none
  | .vobj _ => none

/-- `isValidDate` helper of the obligations page: a falsy argument is invalid, otherwise the
date is valid iff `new Date(dateString).getTime()` is not NaN. -/
def isValidDate : Option JSVal → Bool
  | none => false
  | some v => if jsFalsy v then false else (jsDateValue v).isSome

/-- JSON insignificant whitespace. -/
def jsonWs (c : Char) : Bool :=
  c == ' ' || c == '\n' || c == '\t' || c == Char.ofNat 13

/-- Drops leading JSON whitespace. -/
def skipWs : List Char → List Char
  | [] => []
  | c :: cs => if jsonWs c then skipWs cs else c :: cs

/-- Parses the remainder of a JSON string literal (opening quote already consumed).
Unicode escapes are not modelled (they are rejected); no claim exercises them. -/
def parseStringRest : List Char → Option (String × List Char)
  | [] => none
  | c :: cs =>
    if c == '"' then some ("", cs)
    else if c == '\\' then
      match cs with
      | [] => none
      | e :: cs' =>
        let esc : Option Char :=
          if e == '"' then some '"'
          else if e == '\\' then some '\\'
          else if e == '/' then some '/'
          else if e == 'n' then some '\n'
          else if e == 't' then some '\t'
          else if e == 'r' then some (Char.ofNat 13)
          else if e == 'b' then some (Char.ofNat 8)
          else if e == 'f' then some (Char.ofNat 12)
          else none
        match esc, parseStringRest cs' with
        | some ch, some (rest, cs'') => some (String.singleton ch ++ rest, cs'')
        | _, _ => none
    else
      match parseStringRest cs with
      | some (rest, cs') => some (String.singleton c ++ rest, cs')
      | none => none

/-- Takes a maximal run of decimal digits. -/
def takeDigits : List Char → (List Nat × List Char)
  | [] => ([], [])
  | c :: cs =>
    match digit? c with
    | some d =>
      let (ds, rest) := takeDigits cs
      (d :: ds, rest)
    | none => ([], c :: cs)

/-- Numeric value of a digit run. -/
def natOfDigits (ds : List Nat) : Nat := ds.foldl (fun acc d => acc * 10 + d) 0

/-- Consumes an optional fraction part of a JSON number. -/
def consumeFrac (cs : List Char) : Option (List Char) :=
  match cs with
  | '.' :: rest =>
    match takeDigits rest with
    | ([], _) => none
    | (_, rest') => some rest'
  | _ => some cs

/-- Consumes an optional exponent part of a JSON number. -/
def consumeExp (cs : List Char) : Option (List Char) :=
  match cs with
  | c :: rest =>
    if c == 'e' || c == 'E' then
      let rest' :=
        match rest with
        | '+' :: r => r
        | '-' :: r => r
        | _ => rest
      match takeDigits rest' with
      | ([], _) => none
      | (_, r2) => some r2
    else some (c :: rest)
  | [] => some []

/-- Parses a JSON number token.  The numeric value is recorded as the sign-adjusted integer
part; fraction and exponent digits are consumed for grammar acceptance only — no claim depends
on non-integer numeric values. -/
def parseNumber (cs : List Char) : Option (JSVal × List Char) :=
  let (neg, cs1) :=
    match cs with
    | '-' :: rest => (true, rest)
    | _ => (false, cs)
  match takeDigits cs1 with
  | ([], _) => none
  | (ds, cs2) => do
    let cs3 ← consumeFrac cs2
    let cs4 ← consumeExp cs3
    let n : Int := Int.ofNat (natOfDigits ds)
    some (JSVal.vnum (if neg then -n else n), cs4)

/-- Matches a literal keyword (`true`/`false`/`null` tails). -/
def dropLiteral : List Char → List Char → Option (List Char)
  | [], rest => some rest
  | p :: ps, c :: rest => if p == c then dropLiteral ps rest else none
  | _ :: _, [] => none

mutual

/-- Fuelled JSON value parser (fuel bounds the recursion; `parseJson` supplies enough). -/
def parseJsonVal : Nat → List Char → Option (JSVal × List Char)
  | 0, _ => none
  | fuel + 1, cs =>
    match skipWs cs with
    | [] => none
    | c :: rest =>
      if c == Char.ofNat 123 then
        match skipWs rest with
        | c2 :: rest2 =>
          if c2 == Char.ofNat 125 then some (JSVal.vobj [], rest2)
          else
            match parseObjFields fuel (c2 :: rest2) with
            | some (fs, rest3) => some (JSVal.vobj fs, rest3)
            | none => none
        | [] => none
      else if c == '[' then
        match skipWs rest with
        | c2 :: rest2 =>
          if c2 == ']' then some (JSVal.varr [], rest2)
          else
            match parseArrItems fuel (c2 :: rest2) with
            | some (vs, rest3) => some (JSVal.varr vs, rest3)
            | none => none
        | [] => none
      else if c == '"' then
        match parseStringRest rest with
        | some (s, rest2) => some (JSVal.vstr s, rest2)
        | none => none
      else if c == 't' then
        match dropLiteral ['r', 'u', 'e'] rest with
        | some rest2 => some (JSVal.vbool true, rest2)
        | none => none
      else if c == 'f' then
        match dropLiteral ['a', 'l', 's', 'e'] rest with
        | some rest2 => some (JSVal.vbool false, rest2)
        | none => none
      else if c == 'n' then
        match dropLiteral ['u', 'l', 'l'] rest with
        | some rest2 => some (JSVal.vnull, rest2)
        | none => none
      else parseNumber (c :: rest)

/-- Items of a non-empty JSON array, up to and including the closing bracket. -/
def parseArrItems : Nat → List Char → Option (List JSVal × List Char)
  | 0, _ => none
  | fuel + 1, cs =>
    match parseJsonVal fuel cs with
    | none => none
    | some (v, rest) =>
      match skipWs rest with
      | ',' :: rest2 =>
        match parseArrItems fuel rest2 with
        | some (vs, rest3) => some (v :: vs, rest3)
        | none => none
      | ']' :: rest2 => some ([v], rest2)
      | _ => none

/-- Members of a non-empty JSON object, up to and including the closing brace. -/
def parseObjFields : Nat → List Char → Option (List (String × JSVal) × List Char)
  | 0, _ => none
  | fuel + 1, cs =>
    match skipWs cs with
    | '"' :: rest =>
      match parseStringRest rest with
      | some (key, rest2) =>
        match skipWs rest2 with
        | ':' :: rest3 =>
          match parseJsonVal fuel rest3 with
          | none => none
          | some (v, rest4) =>
            match skipWs rest4 with
            | ',' :: rest5 =>
              match parseObjFields fuel rest5 with
              | some (fs, rest6) => some ((key, v) :: fs, rest6)
              | none => none
            | c :: rest5 =>
              if c == Char.ofNat 125 then some ([(key, v)], rest5) else none
            | [] => none
        | _ => none
      | none => none
    | _ => none

end

/-- Models `JSON.parse`: `none` where the runtime throws a `SyntaxError`. -/
def parseJson (s : String) : Option JSVal :=
  match parseJsonVal (2 * s.length + 4) s.toList with
  | some (v, rest) =>
    match skipWs rest with
    | [] => some v
    | _ :: _ => none
  | none => none

/-- Index of the first opening square bracket. -/
def firstBracketIdx (cs : List Char) : Option Nat :=
  cs.findIdx? (fun c => c == '[')

/-- Index of the last closing square bracket. -/
def lastCloseIdx (cs : List Char) : Option Nat :=
  match cs.reverse.findIdx? (fun c => c == ']') with
  | some j => some (cs.length - 1 - j)
  | none => none

/-- Models the regex match `runResult.match(/\[.*\]/s)`: with the dot-all flag, the
leftmost-greedy match runs from the first opening square bracket to the last closing one
after it. -/
def jsonArrayMatch (s : String) : Option String :=
  let cs := s.toList
  match firstBracketIdx cs, lastCloseIdx cs with
  | some i, some j =>
    if i < j then some (String.mk ((cs.drop i).take (j - i + 1))) else none
  | _, _ => none

/-- One row of the `documents` table (the Status Store).  `created_at`/`updated_at` are
omitted: every write refreshes `updated_at` and no claim references either. -/
structure Doc where
  id : String
  user_id : String
  filename : String
  file_path : String
  party : String
  status : DocStatus
  openai_file_id : Option String
  analysis_results : Option JSVal
  error_message : Option String

/-- The per-document value `processDocument` returns to the orchestrator loop:
either `status: 'processed'` with the provider file id, or `status: 'error'` with the
thrown message. -/
inductive UploadResult
  | processed (documentId : String) (openai_file_id : Option String)
  | errored (documentId : String) (msg : String)

/-- The `documentId` member of an uploader result. -/
def UploadResult.docId : UploadResult → String
  | .processed i _ => i
  | .errored i _ => i

/-- Environment of one `processDocument` invocation: the outcome of each suspension point. -/
structure UploadEnv where
  /-- `supabaseAdmin.storage.from('contracts').download(file_path)`: error message, or the
  file bytes (whose content the function never inspects, hence `Unit`). -/
  blobResult : Except String Unit
  /-- POST to the provider file-ingestion endpoint: the error payload when the response is
  not ok, otherwise the optional `id` member of the JSON body. -/
  providerUpload : Except String (Option String)
  /-- whether the store applies the processing-status update -/
  processingWriteOk : Bool
  /-- whether the store applies the error-status update in the catch block -/
  errorWriteOk : Bool

/-- Result of one uploader invocation: the document row afterwards, the returned result
object, and whether the provider file-ingestion endpoint was called. -/
structure UploadStep where
  doc : Doc
  result : UploadResult
  providerCalled : Bool

/-- `processDocument` of supabase/functions/process-documents/index.ts (lines 145-231).
On success one update persists `openai_file_id` and `status: 'processing'` together.  The
catch block of this variant updates only `status: 'error'` (and the timestamp) — it does not
persist the failure message. -/
def processDocument (env : UploadEnv) (doc : Doc) : UploadStep :=
  match env.blobResult with
  | .error msg =>
    { doc := if env.errorWriteOk then { doc with status := .error } else doc
      result := .errored doc.id ("Error downloading file: " ++ msg)
      providerCalled := false }
  | .ok _ =>
    match env.providerUpload with
    | .error payload =>
      { doc := if env.errorWriteOk then { doc with status := .error } else doc
        result := .errored doc.id ("OpenAI API error: " ++ payload)
        providerCalled := true }
    | .ok uploadedFileId =>
      if env.processingWriteOk then
        { doc := { doc with openai_file_id := uploadedFileId, status := .processing }
          result := .processed doc.id uploadedFileId
          providerCalled := true }
      else
        { doc := if env.errorWriteOk then { doc with status := .error } else doc
          result := .errored doc.id "Error updating document"
          providerCalled := true }

/-- `processDocument` of the third variant in src/unnamed/part_001 (lines 680-773),
document-row effect.  Every update in that variant goes through the file's own homemade
client (lines 914-1072), whose `update(...).eq(...)` returns a plain builder object; the
code awaits the builder without calling `.execute()`, and the object is not thenable, so the
PATCH is never issued.  Neither the success-path processing write (line 727) nor the
catch-block `status`/`error_message` write (line 759) ever lands, and the destructured
`updateError` is always `undefined`, so the success path never throws on it.  The document
row is therefore unchanged on every path; only the returned result object and the provider
side effects differ.  The `processingWriteOk`/`errorWriteOk` fields of the shared
environment are irrelevant to this variant (no write is ever attempted against the store). -/
def processDocumentHomemade (env : UploadEnv) (doc : Doc) : UploadStep :=
  match env.blobResult with
  | .error msg =>
    { doc := doc
      result := .errored doc.id ("Error downloading file: " ++ msg)
      providerCalled := false }
  | .ok _ =>
    match env.providerUpload with
    | .error payload =>
      { doc := doc
        result := .errored doc.id ("OpenAI API error: " ++ payload)
        providerCalled := true }
    | .ok uploadedFileId =>
      { doc := doc
        result := .processed doc.id uploadedFileId
        providerCalled := true }

/-- Environment of one assistants-API `analyzeDocument` invocation
(supabase/functions/process-documents/index.ts lines 233-395). -/
structure AnalyzeEnvAst where
  /-- Outcome of the assistants run: the thrown message (HTTP failure, status-poll failure,
  a failed/cancelled/expired run, or a message-fetch failure), or completion with the text of
  the first assistant message (`none` when no assistant message exists). -/
  inference : Except String (Option String)
  /-- whether the store applies the analyzed-results update -/
  analyzedWriteOk : Bool
  /-- whether the store applies the error-status update in the catch block -/
  errorWriteOk : Bool

/-- Response-processing cascade of the assistants-API `analyzeDocument` (lines 326-351):
an empty/absent run result leaves `obligations = []`; otherwise match `/\[.*\]/s` and
`JSON.parse` the match, falling back to a single placeholder obligation. -/
def asstObligations (runResult : Option String) : JSVal :=
  match runResult with
  | none => JSVal.varr []
  | some text =>
    if text == "" then JSVal.varr []
    else
      match jsonArrayMatch text with
      | some sub =>
        match parseJson sub with
        | some v => v
        | none =>
          JSVal.varr [JSVal.vobj
            [("obligation", JSVal.vstr "Error parsing AI response"),
             ("section", JSVal.vstr "N/A"),
             ("raw_response", JSVal.vstr text)]]
      | none =>
        JSVal.varr [JSVal.vobj
          [("obligation", JSVal.vstr "Raw AI response (parsing failed)"),
           ("section", JSVal.vstr "N/A"),
           ("raw_response", JSVal.vstr text)]]

/-- `analyzeDocument` of supabase/functions/process-documents/index.ts: on success one update
persists `status: 'analyzed'` and `analysis_results` together; on any thrown error the catch
block sets `status: 'error'` (not `analysis_error`) and persists no message.  The source's
return value (a result object the orchestrator ignores) is not modelled. -/
def analyzeDocumentAsst (env : AnalyzeEnvAst) (doc : Doc) : Doc :=
  match env.inference with
  | .error _ =>
    if env.errorWriteOk then { doc with status := .error } else doc
  | .ok runResult =>
    if env.analyzedWriteOk then
      { doc with status := .analyzed, analysis_results := some (asstObligations runResult) }
    else
      if env.errorWriteOk then { doc with status := .error } else doc

/-- Environment of one chat-completions `analyzeDocument` invocation
(src/unnamed/part_001 lines 796-911). -/
structure AnalyzeEnvChat where
  /-- The thrown message (HTTP-level failure, or an unusable response envelope), or
  `choices[0].message.content`. -/
  inference : Except String String

/-- Response processing of the chat-completions `analyzeDocument` (lines 840-859):
`JSON.parse` the content directly, producing a raw_response wrapper object on parse
failure.  The variant computes this value in memory but, see `analyzeDocumentChat`, never
manages to persist it. -/
def chatObligations (analysisContent : String) : JSVal :=
  match parseJson analysisContent with
  | some v => v
  | none => JSVal.vobj [("raw_response", JSVal.vstr analysisContent)]

/-- `analyzeDocument` of the chat-completions variant in src/unnamed/part_001 (lines
796-911), document-row effect.  Every update in that variant goes through the file's own
homemade client (lines 914-1072), whose `update(...).eq(...)` returns a plain builder
object; the code awaits the builder without calling `.execute()`, and the object is not
thenable, so the PATCH is never issued.  Neither the `analyzed` write (line 865) nor the
`analysis_error` write (line 894) — the only `analysis_error` write in the repository —
ever lands, and the destructured `updateError` is always `undefined`, so the success path
never throws on it.  The document row is therefore unchanged on every path, whatever the
inference outcome; only the returned result object and the best-effort provider-side
`cleanupFile` calls differ. -/
def analyzeDocumentChat (_env : AnalyzeEnvChat) (doc : Doc) : Doc :=
  doc

/-- Environment of one full per-document pipeline pass of the deployed orchestrator. -/
structure DocEnv where
  upload : UploadEnv
  analyze : AnalyzeEnvAst

/-- The orchestrator's gate before the analyzer:
`result.status === 'processed' && result.openai_file_id` (truthiness of the handle). -/
def analyzerCondition : UploadResult → Bool
  | .processed _ fid => truthyStrOpt fid
  | .errored _ _ => false

/-- The per-document body of the serve loop (index.ts lines 92-108), iterated over the
snapshot: run the uploader, and iff its result passes `analyzerCondition`, run the analyzer.
Each iteration pushes exactly the uploader result into `results`; the second component
records whether the analyzer was invoked for that document. -/
def runBatch (inputs : List (Doc × DocEnv)) : List (UploadResult × Bool) :=
  inputs.map fun p =>
    let step := processDocument p.2.upload p.1
    (step.result, analyzerCondition step.result)

/-- The full state transformation one orchestrator pass applies to a single document row. -/
def pipelineStep (env : DocEnv) (doc : Doc) : Doc :=
  let step := processDocument env.upload doc
  if analyzerCondition step.result then analyzeDocumentAsst env.analyze step.doc else step.doc

/-- Responses of the process-documents serve handler that the claims distinguish. -/
inductive ServeResponse
  | noAuth
  | failed (msg : String)
  | success (processed : Nat)

/-- The serve handler of process-documents/index.ts: auth check, backlog fetch, loop,
response.  `fetch` is the backlog query outcome (an error, or possibly-null rows, each row
paired with the environment its processing will encounter).  The second component is the
per-document activity: empty means no uploader or analyzer ran and no document row was
written. -/
def serveProcess (auth : Option String)
    (fetch : Except String (Option (List (Doc × DocEnv)))) :
    ServeResponse × List (UploadResult × Bool) :=
  match auth with
  | none => (.noAuth, [])
  | some _ =>
    match fetch with
    | .error msg => (.failed ("Error fetching documents: " ++ msg), [])
    | .ok none => (.success 0, [])
    | .ok (some docs) =>
      if docs.length == 0 then (.success 0, [])
      else (.success (runBatch docs).length, runBatch docs)

/-- The backlog filter compiled from `.eq('status', 'pending').is('openai_file_id', null)`. -/
def backlogPred (d : Doc) : Bool :=
  (d.status == .pending) && d.openai_file_id.isNone

/-- The backlog query: all document rows passing the compound filter. -/
def getBacklog (docs : List Doc) : List Doc := docs.filter backlogPred

/-- Whether an `Except` outcome is a success. -/
def exceptOk {ε α : Type} : Except ε α → Bool
  | .ok _ => true
  | .error _ => false

/-- Specification-side condition: the uploader invocation succeeds (blob retrieved, provider
accepted the file, and the processing-status write was applied). -/
def uploadSucceeds (env : UploadEnv) : Bool :=
  exceptOk env.blobResult && exceptOk env.providerUpload && env.processingWriteOk

/-- Specification-side condition: the provider returned a truthy file handle. -/
def uploadHandleTruthy (env : UploadEnv) : Bool :=
  match env.providerUpload with
  | .ok h => truthyStrOpt h
  | .error _ => false

/-- One analyzed contract as the consolidation view sees it after its validity filter:
`analysis_results` is already known to be a JSON array (its elements stay arbitrary JSON). -/
structure ContractDoc where
  id : String
  filename : String
  analysis_results : List JSVal

/-- One consolidated obligation row ("ConsolidatedObligation" in the source).  The source
field `section` is named `sectionLabel` here (`section` is a Lean keyword); the spread of
unrecognised passthrough fields (`...obligation`) is not modelled — no claim reads them. -/
structure ConsolidatedObligation where
  obligation : String
  sectionLabel : String
  dueDate : JSVal
  documentId : String
  documentName : String

/-- The stored `dueDate` kept when `isValidDate` accepts it, replaced by null otherwise:
`dueDate: isValidDate(obligation.dueDate) ? obligation.dueDate : null`. -/
def normDue (od : Option JSVal) : JSVal :=
  match od with
  | some d => if isValidDate (some d) then d else JSVal.vnull
  | none => JSVal.vnull

/-- The stored `section` kept when it is a string, defaulted to "N/A" otherwise:
`section: typeof obligation.section === 'string' ? obligation.section : 'N/A'`. -/
def normSection (os : Option JSVal) : String :=
  match os with
  | some (.vstr s) => s
  | _ => "N/A"

/-- Per-entry validation and tagging of the consolidation loop (src/unnamed/part_006 lines
205-236): skip anything that is not an object (the `typeof` check also admits arrays, which
the next check then rejects: they have no `obligation` member) or whose `obligation` member
is not a string; default `section` to "N/A" when absent or non-string; replace a `dueDate`
rejected by `isValidDate` with null. -/
def normalizeObligation (docId docName : String) (v : JSVal) : Option ConsolidatedObligation :=
  match v with
  | .vobj fields =>
    match jsField fields "obligation" with
    | some (.vstr text) =>
      some { obligation := text
             sectionLabel := normSection (jsField fields "section")
             dueDate := normDue (jsField fields "dueDate")
             documentId := docId
             documentName := docName }
    | _ => none
  | _ => none

/-- The flat `allObligations` list the consolidation loop accumulates, in document order then
per-document order. -/
def allObligations (cs : List ContractDoc) : List ConsolidatedObligation :=
  cs.flatMap fun c => c.analysis_results.filterMap (normalizeObligation c.id c.filename)

/-- The due-date sort key: the time value when `isValidDate` accepts the entry's `dueDate`,
`none` otherwise. -/
def dueKey (o : ConsolidatedObligation) : Option Int :=
  if isValidDate (some o.dueDate) then jsDateValue o.dueDate else none

/-- Comparator on sort keys: keyless entries tie with each other and come after every keyed
entry; keyed entries compare by time-value subtraction. -/
def keyCompare : Option Int → Option Int → Int
  | none, none => 0
  | none, some _ => 1
  | some _, none => -1
  | some x, some y => x - y

/-- The comparator passed to `Array.prototype.sort` (part_006 lines 241-256): entries whose
`dueDate` fails `isValidDate` compare equal to each other and after every valid-dated entry;
valid-dated entries compare by time-value subtraction. -/
def dueCompare (a b : ConsolidatedObligation) : Int :=
  keyCompare (dueKey a) (dueKey b)

/-- The non-strict order induced by the comparator (comparator value at most 0). -/
def dueLE (a b : ConsolidatedObligation) : Prop := dueCompare a b ≤ 0

instance : DecidableRel dueLE :=
  fun a b => inferInstanceAs (Decidable (dueCompare a b ≤ 0))

instance : IsTotal ConsolidatedObligation dueLE := by
  constructor
  intro a b
  unfold dueLE dueCompare
  rcases dueKey a with _ | x <;> rcases dueKey b with _ | y <;>
    simp only [keyCompare] <;> omega

instance : IsTrans ConsolidatedObligation dueLE := by
  constructor
  intro a b c hab hbc
  unfold dueLE dueCompare at *
  revert hab hbc
  rcases dueKey a with _ | x <;> rcases dueKey b with _ | y <;>
    rcases dueKey c with _ | z <;> simp only [keyCompare] <;> omega

/-- The consolidation computation of fetchContracts (part_006 lines 201-256): flatten all
contracts' obligation arrays through the per-entry validation and tagging, then sort by the
due-date comparator.  `Array.prototype.sort` is stable (ES2019); for the consistent,
key-based comparator used here the stable sorted result is unique and is computed by
insertion sort over the induced non-strict order. -/
def consolidate (cs : List ContractDoc) : List ConsolidatedObligation :=
  List.insertionSort dueLE (allObligations cs)

/-- Claim-side predicate: the entry is an object carrying a string `obligation` member. -/
def keepObligation (v : JSVal) : Bool :=
  match v with
  | .vobj fields =>
    match jsField fields "obligation" with
    | some (.vstr _) => true
    | _ => false
  | _ => false

/-- Specification-side mirror of the per-entry normalization as a total function, used to
state that `allObligations` equals filtering by `keepObligation` and then tagging. -/
def specEntry (docId docName : String) (v : JSVal) : ConsolidatedObligation :=
  { obligation :=
      match v with
      | .vobj fields =>
        match jsField fields "obligation" with
        | some (.vstr s) => s
        | _ => ""
      | _ => ""
    sectionLabel :=
      match v with
      | .vobj fields => normSection (jsField fields "section")
      | _ => "N/A"
    dueDate :=
      match v with
      | .vobj fields => normDue (jsField fields "dueDate")
      | _ => JSVal.vnull
    documentId := docId
    documentName := docName }

/-- Claim-side wellformedness of C10 as stated, on a `dueDate` value: null, or a string
that parses as a valid date. -/
def nullOrValidStringV (d : JSVal) : Bool :=
  match d with
  | .vnull => true
  | .vstr s => (parseDate s).isSome
  | _ => false

/-- Claim-side wellformedness of C10 as stated, on an entry. -/
def dueDateNullOrValidString (e : ConsolidatedObligation) : Bool :=
  nullOrValidStringV e.dueDate

/-- Amended wellformedness on a `dueDate` value: null, or accepted by the date validator. -/
def validatedOrNullV (d : JSVal) : Bool :=
  match d with
  | .vnull => true
  | v => isValidDate (some v)

/-- Amended wellformedness on an entry. -/
def dueDateValidatedOrNull (e : ConsolidatedObligation) : Bool :=
  validatedOrNullV e.dueDate

/-- On a `dueDate` value: if it is a string, it parses as a valid date. -/
def stringParsesV (d : JSVal) : Bool :=
  match d with
  | .vstr s => (parseDate s).isSome
  | _ => true

/-- Any string `dueDate` that survives normalization parses as a valid date. -/
def dueDateStringParses (e : ConsolidatedObligation) : Bool :=
  stringParsesV e.dueDate

/-- Outcome the client export operation surfaces to its caller. -/
inductive ExportOutcome
  | earlyReturn
  | exported (url : JSVal)
  | exportFailed (msg : String)

/-- Environment of one client-side export invocation. -/
structure ClientExportEnv where
  /-- the `error` member of `supabase.functions.invoke('export-obligations', ...)` -/
  invokeError : Option String
  /-- the `data` member (the edge function's JSON response body) -/
  invokeData : Option JSVal

/-- `exportObligations` of the obligations page (part_006 lines 289-330).  The guard
`if (!user || consolidatedObligations.length === 0) return;` exits before any remote call.
The second component records whether the export edge function (and hence, transitively, the
external sink) was invoked. -/
def exportObligationsClient (env : ClientExportEnv) (user : Option String)
    (consolidated : List ConsolidatedObligation) : ExportOutcome × Bool :=
  match user with
  | none => (.earlyReturn, false)
  | some _ =>
    if consolidated.length == 0 then (.earlyReturn, false)
    else
      match env.invokeError with
      | some msg => (.exportFailed ("Error exporting obligations: " ++ msg), true)
      | none =>
        let dataFields :=
          match env.invokeData with
          | some (.vobj fs) => fs
          | _ => []
        let successOk := jsTruthyOpt (jsField dataFields "success")
        let urlField := jsField dataFields "documentUrl"
        if successOk && jsTruthyOpt urlField then
          (.exported (urlField.getD JSVal.vnull), true)
        else
          (.exportFailed "Export failed: No document URL returned", true)

/-- Environment of one export-obligations serve invocation. -/
structure ServeExportEnv where
  /-- the profiles single-row select: error message, or the (nullable) `full_name` value -/
  profile : Except String (Option String)
  /-- the webhook POST: non-ok error text, or the parsed JSON response body -/
  webhook : Except String JSVal

/-- Responses of the export-obligations serve handler that the claims distinguish. -/
inductive ExportResponse
  | ok (documentUrl : Option JSVal)
  | clientError (msg : String)

/-- The serve handler of the export-obligations variant at src/unnamed/part_000 (the variant
with parameter validation): `if (!obligations || !Array.isArray(obligations) || !userId)
throw new Error('Invalid request parameters')` — note an empty array passes this check.
The second component records whether the webhook (the export sink) was called. -/
def serveExportObligations (env : ServeExportEnv) (obligations : Option JSVal)
    (userId : Option String) : ExportResponse × Bool :=
  match obligations, userId with
  | some (JSVal.varr _), some uid =>
    if uid == "" then (.clientError "Invalid request parameters", false)
    else
      match env.profile with
      | .error msg => (.clientError ("Failed to fetch user profile: " ++ msg), false)
      | .ok _ =>
        match env.webhook with
        | .error msg => (.clientError ("Webhook error: " ++ msg), true)
        | .ok respData =>
          let urlField :=
            match respData with
            | .vobj fs =>
              match jsField fs "documentUrl" with
              | some u => if jsFalsy u then jsField fs "url" else some u
              | none => jsField fs "url"
            | _ => none
          (.ok urlField, true)
  | _, _ => (.clientError "Invalid request parameters", false)

/-- A fresh pending document, as the upload flow creates it. -/
def docPending : Doc :=
  { id := "doc-1", user_id := "user-1", filename := "contract.pdf",
    file_path := "user-1/contract.pdf", party := "Acme Mining",
    status := .pending, openai_file_id := none, analysis_results := none,
    error_message := none }

/-- A document the uploader has advanced to processing. -/
def docProcessing : Doc :=
  { docPending with status := .processing, openai_file_id := some "file-1" }

/-- Uploader environment in which every step succeeds. -/
def envUploadOk : UploadEnv :=
  { blobResult := .ok (), providerUpload := .ok (some "file-1"),
    processingWriteOk := true, errorWriteOk := true }

/-- Uploader environment in which blob retrieval fails and store writes succeed. -/
def envBlobFail : UploadEnv :=
  { blobResult := .error "Object not found", providerUpload := .ok (some "file-1"),
    processingWriteOk := true, errorWriteOk := true }

/-- Assistants-analyzer environment: inference succeeds with unparseable text. -/
def envAsstOk : AnalyzeEnvAst :=
  { inference := .ok (some "no structured output"), analyzedWriteOk := true,
    errorWriteOk := true }

/-- Assistants-analyzer environment: the provider call fails. -/
def envAsstFail : AnalyzeEnvAst :=
  { inference := .error "OpenAI API error: rate limited", analyzedWriteOk := true,
    errorWriteOk := true }

/-- Chat-analyzer environment: inference succeeds with unparseable text. -/
def envChatOk : AnalyzeEnvChat :=
  { inference := .ok "no structured output" }

/-- Chat-analyzer environment: the provider call fails. -/
def envChatFail : AnalyzeEnvChat :=
  { inference := .error "OpenAI Analysis API error: rate limited" }

/-- Two analyzed contracts whose obligations carry, in processing order, the due dates
null, "2024-03-01", "invalid", "2024-01-01" — the stability example of the specification. -/
def exContractsDates : List ContractDoc :=
  [{ id := "doc-a", filename := "alpha.pdf",
     analysis_results :=
       [JSVal.vobj [("obligation", JSVal.vstr "o1"), ("section", JSVal.vstr "1"),
                    ("dueDate", JSVal.vnull)],
        JSVal.vobj [("obligation", JSVal.vstr "o2"), ("section", JSVal.vstr "2"),
                    ("dueDate", JSVal.vstr "2024-03-01")]] },
   { id := "doc-b", filename := "beta.pdf",
     analysis_results :=
       [JSVal.vobj [("obligation", JSVal.vstr "o3"),
                    ("dueDate", JSVal.vstr "invalid")],
        JSVal.vobj [("obligation", JSVal.vstr "o4"), ("section", JSVal.vstr "4"),
                    ("dueDate", JSVal.vstr "2024-01-01")]] }]

/-- The expected consolidated order for `exContractsDates`: valid dates ascending first,
then the invalid/missing-dated entries in their original relative order. -/
def exConsolidatedDates : List ConsolidatedObligation :=
  [{ obligation := "o4", sectionLabel := "4", dueDate := JSVal.vstr "2024-01-01",
     documentId := "doc-b", documentName := "beta.pdf" },
   { obligation := "o2", sectionLabel := "2", dueDate := JSVal.vstr "2024-03-01",
     documentId := "doc-a", documentName := "alpha.pdf" },
   { obligation := "o1", sectionLabel := "1", dueDate := JSVal.vnull,
     documentId := "doc-a", documentName := "alpha.pdf" },
   { obligation := "o3", sectionLabel := "N/A", dueDate := JSVal.vnull,
     documentId := "doc-b", documentName := "beta.pdf" }]

/-- Two analyzed contracts none of whose obligations carries a due date. -/
def exContractsNoDates : List ContractDoc :=
  [{ id := "doc-c", filename := "gamma.pdf",
     analysis_results :=
       [JSVal.vobj [("obligation", JSVal.vstr "p1")],
        JSVal.vobj [("obligation", JSVal.vstr "p2")]] },
   { id := "doc-d", filename := "delta.pdf",
     analysis_results := [JSVal.vobj [("obligation", JSVal.vstr "p3")]] }]

/-- A stored obligation whose `dueDate` is a number: truthy, and accepted by the date
validator, yet neither null nor a string. -/
def cexNumContracts : List ContractDoc :=
  [{ id := "doc-n", filename := "epsilon.pdf",
     analysis_results :=
       [JSVal.vobj [("obligation", JSVal.vstr "pay royalties"),
                    ("dueDate", JSVal.vnum 86400000)]] }]

/-- The entry the consolidation retains for `cexNumContracts`. -/
def cexNumEntry : ConsolidatedObligation :=
  { obligation := "pay royalties", sectionLabel := "N/A", dueDate := JSVal.vnum 86400000,
    documentId := "doc-n", documentName := "epsilon.pdf" }

/-- An arbitrary client export environment (its fields are unreachable behind the guard). -/
def envClientAny : ClientExportEnv :=
  { invokeError := none, invokeData := none }

/-- Export serve environment: profile fetch and webhook both succeed. -/
def envServeOk : ServeExportEnv :=
  { profile := .ok (some "Jane Doe"),
    webhook := .ok (JSVal.vobj [("documentUrl", JSVal.vstr "u-1")]) }

/-- Entries with equal sort keys compare as a tie, hence are `dueLE`-related. -/
theorem dueLE_of_dueKey_eq {a b : ConsolidatedObligation} (h : dueKey a = dueKey b) :
    dueLE a b := by
  unfold dueLE dueCompare
  rw [h]
  rcases dueKey b with _ | y <;> simp only [keyCompare] <;> omega

/-- Inserting an element that satisfies `p`, when every element satisfying `p` is
`le`-above it, appends it to the front of the `p`-filtered list. -/
theorem filter_orderedInsert_pos {α : Type} (le : α → α → Prop) [DecidableRel le]
    (p : α → Bool) (a : α) (l : List α) (ha : p a = true)
    (h : ∀ b, p b = true → le a b) :
    (List.orderedInsert le a l).filter p = a :: l.filter p := by
  induction l with
  | nil => simp [List.orderedInsert, ha]
  | cons b t ih =>
    by_cases hab : le a b
    · simp [List.orderedInsert, hab, List.filter_cons, ha]
    · have hpb : p b = false := by
        cases hpb : p b with
        | false => rfl
        | true => exact absurd (h b hpb) hab
      simp [List.orderedInsert, hab, List.filter_cons, hpb, ih]

/-- Inserting an element that fails `p` leaves the `p`-filtered list unchanged. -/
theorem filter_orderedInsert_neg {α : Type} (le : α → α → Prop) [DecidableRel le]
    (p : α → Bool) (a : α) (l : List α) (ha : p a = false) :
    (List.orderedInsert le a l).filter p = l.filter p := by
  induction l with
  | nil => simp [List.orderedInsert, ha]
  | cons b t ih =>
    by_cases hab : le a b
    · simp [List.orderedInsert, hab, List.filter_cons, ha]
    · simp [List.orderedInsert, hab, List.filter_cons, ih]

/-- Stability of insertion sort, key form: sorting does not reorder the sublist of elements
satisfying `p`, provided any two elements satisfying `p` are mutually `le`-related. -/
theorem filter_insertionSort {α : Type} (le : α → α → Prop) [DecidableRel le]
    (p : α → Bool) (hcompat : ∀ a b, p a = true → p b = true → le a b) :
    ∀ l : List α, (List.insertionSort le l).filter p = l.filter p := by
  intro l
  induction l with
  | nil => rfl
  | cons a t ih =>
    show (List.orderedInsert le a (List.insertionSort le t)).filter p = _
    cases hpa : p a with
    | false =>
      rw [filter_orderedInsert_neg le p a _ hpa, ih]
      simp [List.filter_cons, hpa]
    | true =>
      rw [filter_orderedInsert_pos le p a _ hpa (fun b hb => hcompat a b hpa hb), ih]
      simp [List.filter_cons, hpa]

/-- Claim C6: consolidation merges the tagged obligations of all analyzed documents and
stably sorts them by due date ascending with invalid or missing dates last: the consolidated
register is a permutation of the flattened tagged list, it is sorted under the comparator
order, entries with equal sort keys (in particular, all invalid/missing-dated entries) keep
their original relative order, the specification's four-date example produces the order
2024-01-01, 2024-03-01, null, invalid, and a collection with no due date at all consolidates
to the input order. -/
theorem claim_C6_consolidation (cs : List ContractDoc) :
    (consolidate cs).Perm (allObligations cs)
  ∧ List.Sorted dueLE (consolidate cs)
  ∧ (∀ k : Option Int,
      (consolidate cs).filter (fun e => decide (dueKey e = k)) =
      (allObligations cs).filter (fun e => decide (dueKey e = k)))
  ∧ consolidate exContractsDates = exConsolidatedDates
  ∧ consolidate exContractsNoDates = allObligations exContractsNoDates := by
  refine ⟨List.perm_insertionSort dueLE _, List.sorted_insertionSort dueLE _, ?_, ?_, ?_⟩
  · intro k
    exact filter_insertionSort dueLE (fun e => decide (dueKey e = k))
      (fun a b ha hb =>
        dueLE_of_dueKey_eq ((of_decide_eq_true ha).trans (of_decide_eq_true hb).symm)) _
  · rfl
  · rfl

/-- A normalized `dueDate` is null or accepted by the date validator. -/
theorem normDue_validated (od : Option JSVal) : validatedOrNullV (normDue od) = true := by
  unfold normDue validatedOrNullV
  rcases od with _ | d
  · rfl
  · cases h : isValidDate (some d)
    · simp [h]
    · simp only [h, if_true]
      cases d <;> simp_all [isValidDate]

/-- A normalized string `dueDate` parses as a valid date. -/
theorem normDue_stringParses (od : Option JSVal) : stringParsesV (normDue od) = true := by
  unfold normDue stringParsesV
  rcases od with _ | d
  · rfl
  · cases h : isValidDate (some d)
    · simp [h]
    · simp only [h, if_true]
      cases d <;> try rfl
      case vstr s =>
        unfold isValidDate jsFalsy jsDateValue at h
        cases hs : s == ""
        · simp [hs] at h
          simp [h]
        · simp [hs] at h

/-- The per-entry normalization keeps exactly the objects with a string `obligation` member,
and produces the specification-side entry on those. -/
theorem normalizeObligation_eq_keep (docId docName : String) (v : JSVal) :
    normalizeObligation docId docName v =
      if keepObligation v then some (specEntry docId docName v) else none := by
  cases v with
  | vobj fields =>
    rcases h : jsField fields "obligation" with _ | w
    · simp [normalizeObligation, keepObligation, specEntry, h]
    · cases w <;> simp [normalizeObligation, keepObligation, specEntry, h]
  | vnull => rfl
  | vbool b => rfl
  | vnum n => rfl
  | vstr s => rfl
  | varr l => rfl

/-- A `filterMap` whose function is a guarded `map` is the `map` after the `filter`. -/
theorem filterMap_eq_filter_map {α β : Type} (f : α → Option β) (p : α → Bool) (g : α → β)
    (hf : ∀ v, f v = if p v then some (g v) else none) :
    ∀ l : List α, l.filterMap f = (l.filter p).map g := by
  intro l
  induction l with
  | nil => rfl
  | cons a t ih =>
    rw [List.filterMap_cons, List.filter_cons, hf a]
    cases hpa : p a <;> simp [hpa, ih]

/-- Every entry of the flattened consolidation list has a normalized `dueDate`. -/
theorem mem_allObligations_due {cs : List ContractDoc} {e : ConsolidatedObligation}
    (he : e ∈ allObligations cs) :
    validatedOrNullV e.dueDate = true ∧ stringParsesV e.dueDate = true := by
  unfold allObligations at he
  rcases List.mem_flatMap.mp he with ⟨c, _, hmem⟩
  rcases List.mem_filterMap.mp hmem with ⟨v, _, hv⟩
  cases v with
  | vobj fields =>
    simp only [normalizeObligation] at hv
    rcases h : jsField fields "obligation" with _ | w
    · rw [h] at hv
      exact absurd hv (by simp)
    · rw [h] at hv
      cases w with
      | vstr s =>
        injection hv with hv2
        rw [← hv2]
        exact ⟨normDue_validated _, normDue_stringParses _⟩
      | vnull => exact absurd hv (by simp)
      | vbool b => exact absurd hv (by simp)
      | vnum n => exact absurd hv (by simp)
      | varr l => exact absurd hv (by simp)
      | vobj f => exact absurd hv (by simp)
  | vnull => exact absurd hv (by simp [normalizeObligation])
  | vbool b => exact absurd hv (by simp [normalizeObligation])
  | vnum n => exact absurd hv (by simp [normalizeObligation])
  | vstr s => exact absurd hv (by simp [normalizeObligation])
  | varr l => exact absurd hv (by simp [normalizeObligation])

/-- Claim C10 counterexample: a stored obligation whose `dueDate` is the number 86400000 is
retained by consolidation with that number as its `dueDate`, which is neither null nor a
string parseable as a date — the register entry is not wellformed in the claimed sense. -/
theorem claim_C10_counterexample :
    consolidate cexNumContracts = [cexNumEntry]
  ∧ (consolidate cexNumContracts).all dueDateNullOrValidString = false := ⟨rfl, rfl⟩

/-- Claim C10 (amended): consolidation drops exactly the stored entries that are not objects
with a string `obligation` member (tagging the kept ones in order), and every retained
entry's `dueDate` is either null or a value accepted by the date validator; in particular
every retained string `dueDate` parses as a valid date (non-string truthy values that coerce
to valid dates, such as numbers, are retained as-is). -/
theorem claim_C10_register_wellformed (cs : List ContractDoc) :
    ((consolidate cs).all dueDateValidatedOrNull = true)
  ∧ ((consolidate cs).all dueDateStringParses = true)
  ∧ allObligations cs =
      cs.flatMap fun c =>
        (c.analysis_results.filter keepObligation).map (specEntry c.id c.filename) := by
  refine ⟨?_, ?_, ?_⟩
  · rw [List.all_eq_true]
    intro e he
    exact (mem_allObligations_due ((List.mem_insertionSort dueLE).mp he)).1
  · rw [List.all_eq_true]
    intro e he
    exact (mem_allObligations_due ((List.mem_insertionSort dueLE).mp he)).2
  · unfold allObligations
    induction cs with
    | nil => rfl
    | cons c t ih =>
      simp only [List.flatMap_cons]
      rw [filterMap_eq_filter_map (normalizeObligation c.id c.filename) keepObligation
            (specEntry c.id c.filename) (normalizeObligation_eq_keep c.id c.filename), ih]

/-- Claim C1: whenever an Analyzer invocation on a processing document ends with status
`analyzed`, the same update has persisted a non-null `analysis_results` value — for the
deployed assistants-API analyzer and for the chat-completions variant alike. -/
theorem claim_C1_analyzed_implies_obligations
    (envA : AnalyzeEnvAst) (envC : AnalyzeEnvChat) (doc : Doc)
    (hdoc : doc.status = .processing) :
    ((analyzeDocumentAsst envA doc).status = .analyzed →
       (analyzeDocumentAsst envA doc).analysis_results ≠ none)
  ∧ ((analyzeDocumentChat envC doc).status = .analyzed →
       (analyzeDocumentChat envC doc).analysis_results ≠ none) := by
  constructor
  · unfold analyzeDocumentAsst
    rcases envA.inference with msg | runResult
    · cases envA.errorWriteOk <;> simp [hdoc]
    · cases envA.analyzedWriteOk
      · cases envA.errorWriteOk <;> simp [hdoc]
      · simp
  · simp [analyzeDocumentChat, hdoc]

/-- Claim C1 witness: in a concrete successful-inference environment the deployed analyzer
reaches `analyzed` with non-null obligations (the chat variant never reaches `analyzed` at
all, since its write never executes, so only the first conjunct can be exercised). -/
theorem claim_C1_witness :
    (analyzeDocumentAsst envAsstOk docProcessing).analysis_results ≠ none :=
  (claim_C1_analyzed_implies_obligations envAsstOk envChatOk docProcessing rfl).1 rfl

/-- Claim C2 counterexample: the deployed assistants-API Analyzer writes status `error`, not
`analysis_error`, when the provider call fails on a processing document. -/
theorem claim_C2_counterexample :
    (analyzeDocumentAsst envAsstFail docProcessing).status = .error ∧
    DocStatus.error ≠ DocStatus.analysisError := ⟨rfl, by decide⟩

/-- Claim C2 (amended): on a processing document, when the store write lands, the deployed
assistants-API Analyzer reaches `analyzed` whenever the provider inference call succeeds
(even if the response text cannot be parsed) and `error` — not `analysis_error` — whenever
the provider call itself fails; it never writes any other status, and the document keeps
`processing` only by being left untouched when every write fails.  No Analyzer in the
repository ever persists `analysis_error`: the only write of that status (the part_001
chat-completions variant, line 894) is never executed — that variant leaves the document
row unchanged on every path. -/
theorem claim_C2_status_transitions
    (envA : AnalyzeEnvAst) (envC : AnalyzeEnvChat) (doc : Doc)
    (hdoc : doc.status = .processing) :
    (∀ r, envA.inference = .ok r → envA.analyzedWriteOk = true →
        (analyzeDocumentAsst envA doc).status = .analyzed)
  ∧ (∀ msg, envA.inference = .error msg → envA.errorWriteOk = true →
        (analyzeDocumentAsst envA doc).status = .error)
  ∧ ((analyzeDocumentAsst envA doc).status = .processing ∨
     (analyzeDocumentAsst envA doc).status = .analyzed ∨
     (analyzeDocumentAsst envA doc).status = .error)
  ∧ ((analyzeDocumentAsst envA doc).status = .processing →
       analyzeDocumentAsst envA doc = doc)
  ∧ analyzeDocumentChat envC doc = doc
  ∧ (analyzeDocumentChat envC doc).status ≠ .analysisError := by
  refine ⟨?_, ?_, ?_, ?_, rfl, ?_⟩
  · intro r hr hw
    simp [analyzeDocumentAsst, hr, hw]
  · intro msg hm hw
    simp [analyzeDocumentAsst, hm, hw]
  · unfold analyzeDocumentAsst
    rcases envA.inference with msg | r
    · cases envA.errorWriteOk <;> simp [hdoc]
    · cases envA.analyzedWriteOk
      · cases envA.errorWriteOk <;> simp [hdoc]
      · simp
  · unfold analyzeDocumentAsst
    rcases envA.inference with msg | r
    · cases envA.errorWriteOk <;> simp
    · cases envA.analyzedWriteOk
      · cases envA.errorWriteOk <;> simp
      · simp
  · simp [analyzeDocumentChat, hdoc]

/-- Claim C2 witness: the amended transitions at concrete environments — the deployed
analyzer reaches `analyzed` on success and `error` on provider failure, and the chat
variant leaves the document row unchanged even on provider failure. -/
theorem claim_C2_witness :
    (analyzeDocumentAsst envAsstOk docProcessing).status = .analyzed ∧
    (analyzeDocumentAsst envAsstFail docProcessing).status = .error ∧
    analyzeDocumentChat envChatFail docProcessing = docProcessing := by
  refine ⟨?_, ?_, ?_⟩
  · exact (claim_C2_status_transitions envAsstOk envChatOk docProcessing rfl).1
      (some "no structured output") rfl rfl
  · exact (claim_C2_status_transitions envAsstFail envChatOk docProcessing rfl).2.1
      "OpenAI API error: rate limited" rfl rfl
  · exact (claim_C2_status_transitions envAsstOk envChatFail docProcessing rfl).2.2.2.2.1

/-- The uploader's returned result object always carries the processed document's id. -/
theorem processDocument_docId (env : UploadEnv) (doc : Doc) :
    (processDocument env doc).result.docId = doc.id := by
  unfold processDocument UploadResult.docId
  rcases env.blobResult with m | u
  · rfl
  · rcases env.providerUpload with m | fid
    · rfl
    · cases env.processingWriteOk <;> rfl

/-- Claim C3: the orchestrator records exactly one result per snapshot document (so one
document's failure never aborts the batch), each result carries that document's id, and the
analyzer is invoked if and only if the uploader invocation succeeded with a truthy provider
file handle. -/
theorem claim_C3_orchestrator (inputs : List (Doc × DocEnv)) (doc : Doc) (env : DocEnv) :
    (runBatch inputs).length = inputs.length
  ∧ (runBatch inputs).map (fun r => r.1.docId) = inputs.map (fun p => p.1.id)
  ∧ analyzerCondition (processDocument env.upload doc).result =
      (uploadSucceeds env.upload && uploadHandleTruthy env.upload) := by
  refine ⟨by simp [runBatch], ?_, ?_⟩
  · unfold runBatch
    rw [List.map_map]
    apply List.map_congr_left
    intro p _
    exact processDocument_docId p.2.upload p.1
  · unfold analyzerCondition uploadSucceeds uploadHandleTruthy exceptOk processDocument
    rcases env.upload.blobResult with m | u
    · rfl
    · rcases env.upload.providerUpload with m | fid
      · rfl
      · cases env.upload.processingWriteOk <;> rfl

/-- Claim C4: on a pending document the uploader only ever transitions the status to
`processing` (success: the provider handle is persisted in the same update and returned) or
`error` (failure), never to `analyzed` or `analysis_error`; when no write lands the document
stays `pending`. -/
theorem claim_C4_uploader_transitions (env : UploadEnv) (doc : Doc)
    (hdoc : doc.status = .pending) :
    ((processDocument env doc).doc.status = .pending ∨
     (processDocument env doc).doc.status = .processing ∨
     (processDocument env doc).doc.status = .error)
  ∧ (processDocument env doc).doc.status ≠ .analyzed
  ∧ (processDocument env doc).doc.status ≠ .analysisError
  ∧ (∀ fid, (processDocument env doc).result = .processed doc.id fid →
       (processDocument env doc).doc.status = .processing ∧
       (processDocument env doc).doc.openai_file_id = fid)
  ∧ ((processDocument env doc).doc.status = .processing →
       (processDocument env doc).result =
         .processed doc.id ((processDocument env doc).doc.openai_file_id)) := by
  unfold processDocument
  rcases env.blobResult with m | u
  · cases env.errorWriteOk <;> simp [hdoc]
  · rcases env.providerUpload with m | fid
    · cases env.errorWriteOk <;> simp [hdoc]
    · cases env.processingWriteOk
      · cases env.errorWriteOk <;> simp [hdoc]
      · simp

/-- Claim C4 witness: in the all-success environment the document reaches `processing` with
the provider handle persisted. -/
theorem claim_C4_witness :
    (processDocument envUploadOk docPending).doc.status = .processing ∧
    (processDocument envUploadOk docPending).doc.openai_file_id = some "file-1" :=
  (claim_C4_uploader_transitions envUploadOk docPending rfl).2.2.2.1 (some "file-1") rfl

/-- Claim C5 counterexample: in the deployed uploader, after a blob-retrieval failure on a
document with no prior error message (and with the error-status write applied), the document
is marked `error` but its persisted `error_message` is still null — the failure message is
not recorded on the document, only in the returned result. -/
theorem claim_C5_counterexample :
    (processDocument envBlobFail docPending).doc.status = .error ∧
    (processDocument envBlobFail docPending).doc.error_message = none ∧
    (processDocument envBlobFail docPending).providerCalled = false := ⟨rfl, rfl, rfl⟩

/-- Claim C5 (amended): when blob retrieval fails, both uploader variants return failure
carrying the message and never call the provider's file-ingestion endpoint; the deployed
uploader marks the document `error` (when the write lands) but leaves `error_message`
untouched, and the part_001 variant persists nothing at all — its catch-block write (the
one naming `error_message`, line 759) never executes, so no uploader in the repository ever
records the failure message on the document. -/
theorem claim_C5_blob_failure (env : UploadEnv) (doc : Doc) (msg : String)
    (hblob : env.blobResult = .error msg) (hw : env.errorWriteOk = true) :
    ((processDocument env doc).doc.status = .error
  ∧ (processDocument env doc).doc.error_message = doc.error_message
  ∧ (processDocument env doc).result = .errored doc.id ("Error downloading file: " ++ msg)
  ∧ (processDocument env doc).providerCalled = false)
  ∧ ((processDocumentHomemade env doc).doc = doc
  ∧ (processDocumentHomemade env doc).result =
      .errored doc.id ("Error downloading file: " ++ msg)
  ∧ (processDocumentHomemade env doc).providerCalled = false) := by
  simp [processDocument, processDocumentHomemade, hblob, hw]

/-- Claim C5 witness: the amended behaviour at the concrete blob-failure environment — the
deployed uploader marks `error`, the part_001 variant leaves the row byte-identical, and
neither calls the provider. -/
theorem claim_C5_witness :
    (processDocument envBlobFail docPending).doc.status = .error ∧
    (processDocumentHomemade envBlobFail docPending).doc = docPending ∧
    (processDocumentHomemade envBlobFail docPending).providerCalled = false := by
  have h := claim_C5_blob_failure envBlobFail docPending "Object not found" rfl rfl
  exact ⟨h.1.1, h.2.1, h.2.2.2⟩

/-- A document whose status is not `pending` fails the backlog filter. -/
theorem backlogPred_false_of_status (d : Doc) (h : d.status ≠ .pending) :
    backlogPred d = false := by
  unfold backlogPred
  cases hs : d.status == DocStatus.pending
  · rfl
  · exact absurd (eq_of_beq hs) h

/-- The assistants-API analyzer never moves a document to `pending`. -/
theorem analyzeAsst_ne_pending (env : AnalyzeEnvAst) (d : Doc) (h : d.status ≠ .pending) :
    (analyzeDocumentAsst env d).status ≠ .pending := by
  unfold analyzeDocumentAsst
  rcases env.inference with m | r
  · cases env.errorWriteOk <;> simp [h]
  · cases env.analyzedWriteOk
    · cases env.errorWriteOk <;> simp [h]
    · simp

/-- A branch of documents, neither of which is pending, is not pending. -/
theorem ite_status_ne_pending (c : Prop) [Decidable c] (d1 d2 : Doc)
    (h1 : d1.status ≠ .pending) (h2 : d2.status ≠ .pending) :
    (if c then d1 else d2).status ≠ .pending := by
  by_cases hc : c
  · simp [hc, h1]
  · simp [hc, h2]

/-- Claim C7: the backlog query selects exactly the documents with status `pending` and a
null provider handle, and one orchestrator pass either leaves a document row untouched or
moves it out of the backlog filter — so a document a previous run advanced (any status
change, every one of which also implies a non-pending status or a stored handle) is never
selected or reprocessed by a subsequent run. -/
theorem claim_C7_idempotent (docs : List Doc) (d : Doc) (env : DocEnv) (doc : Doc) :
    (d ∈ getBacklog docs ↔ d ∈ docs ∧ d.status = .pending ∧ d.openai_file_id = none)
  ∧ (pipelineStep env doc = doc ∨ backlogPred (pipelineStep env doc) = false) := by
  constructor
  · simp [getBacklog, backlogPred, List.mem_filter, Bool.and_eq_true, beq_iff_eq,
          Option.isNone_iff_eq_none, and_assoc]
  · obtain ⟨⟨blob, prov, pwk, ewk⟩, inf, awk, aewk⟩ := env
    rcases blob with m | u
    · cases ewk
      · exact Or.inl rfl
      · exact Or.inr rfl
    · rcases prov with m | fid
      · cases ewk
        · exact Or.inl rfl
        · exact Or.inr rfl
      · cases pwk
        · cases ewk
          · exact Or.inl rfl
          · exact Or.inr rfl
        · right
          apply backlogPred_false_of_status
          simp only [pipelineStep, processDocument]
          exact ite_status_ne_pending _ _ _ (analyzeAsst_ne_pending _ _ (by simp)) (by simp)

/-- Claim C8 counterexample: invoked with an empty consolidated list the client export
operation returns early — the edge function (and hence the sink) is not called, but the
caller receives no validation error either, just a silent return; and the export edge
function itself, invoked directly with an empty obligations array, does call the sink. -/
theorem claim_C8_counterexample :
    (exportObligationsClient envClientAny (some "user-1") []).1 = .earlyReturn
  ∧ (exportObligationsClient envClientAny (some "user-1") []).2 = false
  ∧ (∀ msg, ExportOutcome.earlyReturn ≠ ExportOutcome.exportFailed msg)
  ∧ (serveExportObligations envServeOk (some (JSVal.varr [])) (some "user-1")).2 = true := by
  refine ⟨rfl, rfl, ?_, rfl⟩
  intro msg h
  exact ExportOutcome.noConfusion h

/-- Claim C8 (amended): the client-side export invoked with an empty consolidated list (or
without a user) returns early, calling nothing and surfacing nothing; the server-side export
function performs no emptiness validation — invoked directly with an empty array and a
non-empty userId it proceeds to call the sink (its validation rejects only a missing or
non-array obligations parameter or a falsy userId). -/
theorem claim_C8_empty_export (env : ClientExportEnv) (uid : String)
    (l : List ConsolidatedObligation) (name : String) (wh : Except String JSVal) :
    exportObligationsClient env (some uid) [] = (.earlyReturn, false)
  ∧ exportObligationsClient env none l = (.earlyReturn, false)
  ∧ (serveExportObligations { profile := .ok (some name), webhook := wh }
        (some (JSVal.varr [])) (some "user-1")).2 = true
  ∧ serveExportObligations { profile := .ok (some name), webhook := wh } none (some "user-1")
      = (.clientError "Invalid request parameters", false) := by
  refine ⟨rfl, rfl, ?_, rfl⟩
  rcases wh with m | r <;> rfl

/-- Claim C9: with authorization present and an empty (or null) backlog snapshot, the
orchestrator returns a success response with processed = 0 and an empty per-document
activity list — no uploader or analyzer invocation, and no document write, occurs. -/
theorem claim_C9_empty_backlog (tok : String) :
    serveProcess (some tok) (.ok none) = (.success 0, [])
  ∧ serveProcess (some tok) (.ok (some [])) = (.success 0, []) := ⟨rfl, rfl⟩

end MiningContracts
